import Mathlib

/-!
Verification of the record hydration & serialization layer of `figo/models.py`.

The Python code is shallowly embedded as follows:

* JSON-ish runtime values (the values a decoded JSON mapping can hold, plus the
  two kinds of values that post-construction hydration introduces: parsed
  `datetime` objects and hydrated model instances) become the inductive `Value`.
  Numbers are modelled as integers; none of the verified properties depend on
  float arithmetic.
* A constructed model instance is its attribute dictionary: an association list
  `Model = List (String × Value)` built by `ModelBase.__init__`
  (`self.session = session` followed by one `setattr` per mapping item) and
  mutated by the per-type post-construction steps.  Attribute reads fall back
  to the class-level defaults, which are all `None`, hence `getAttr` returns
  `Value.null` for any name not in the list.
* `dateutil.parser.parse` is modelled by `parseDatetime`, covering the formats
  this repository feeds it (ISO-8601 `YYYY-MM-DDTHH:MM:SS`, with optional
  fractional seconds and optional `Z` suffix, and the loose variant
  `YYYY-MM-DD HH:MM:SS`).  Strings outside these forms yield `none`, modelling
  dateutil's `ValueError`; non-string arguments raise `TypeError` in dateutil,
  modelled by `PyError.typeError` at the call sites.
* Fallible construction returns `Except PyError Model` (or `Except PyError
  Value` for nested instances).  `PyError.parseError` stands for the
  `ValueError` raised by `dateutil.parser.parse`; `PyError.typeError` stands
  for Python `TypeError` (calling the timestamp parser on a non-string,
  unpacking a non-mapping with `**`, or a keyword colliding with a positional
  parameter of `__init__`).
-/

namespace Figo

/-- A parsed calendar timestamp, the result of `dateutil.parser.parse`.
`utc` records whether a `Z` suffix marked the value as UTC (dateutil returns a
timezone-aware datetime for `Z` and a naive one otherwise). -/
structure DateTime where
  year : Nat
  month : Nat
  day : Nat
  hour : Nat
  minute : Nat
  second : Nat
  millisecond : Nat
  utc : Bool
deriving DecidableEq, Repr

/-- Read `count` decimal digits from the front of `cs`, returning their value
and the rest of the characters. -/
def fixedNat : Nat → Nat → List Char → Option (Nat × List Char)
  | 0, acc, cs => some (acc, cs)
  | n + 1, acc, c :: cs =>
      if c.isDigit then fixedNat n (acc * 10 + (c.toNat - 48)) cs else none
  | _ + 1, _, [] => none

/-- Expect one specific character at the front of `cs`. -/
def expectChar (c : Char) : List Char → Option (List Char)
  | c' :: cs => if c' = c then some cs else none
  | [] => none

/-- Parser body of `parseDatetime`, working on the character list. -/
def parseDatetimeChars (cs : List Char) : Option DateTime := do
  let (y, cs) ← fixedNat 4 0 cs
  let cs ← expectChar '-' cs
  let (mo, cs) ← fixedNat 2 0 cs
  let cs ← expectChar '-' cs
  let (d, cs) ← fixedNat 2 0 cs
  let cs ← (match cs with
    | 'T' :: rest => some rest
    | ' ' :: rest => some rest
    | _ => none)
  let (h, cs) ← fixedNat 2 0 cs
  let cs ← expectChar ':' cs
  let (mi, cs) ← fixedNat 2 0 cs
  let cs ← expectChar ':' cs
  let (s, cs) ← fixedNat 2 0 cs
  let (ms, cs) ← (match cs with
    | '.' :: rest => fixedNat 3 0 rest
    | _ => some (0, cs))
  let (utc, cs) ← (match cs with
    | 'Z' :: rest => some (true, rest)
    | _ => some (false, cs))
  match cs with
  | [] =>
      if 1 ≤ mo ∧ mo ≤ 12 ∧ 1 ≤ d ∧ d ≤ 31 ∧ h ≤ 23 ∧ mi ≤ 59 ∧ s ≤ 59 then
        some ⟨y, mo, d, h, mi, s, ms, utc⟩
      else none
  | _ => none

/-- Model of `dateutil.parser.parse` restricted to the timestamp formats this
repository feeds it; `none` models the `ValueError` dateutil raises on strings
it cannot parse (all concrete strings treated as failures below, such as
`"not-a-date"` and `""`, are indeed rejected by dateutil). -/
def parseDatetime (s : String) : Option DateTime :=
  parseDatetimeChars s.data

/-- Runtime values of the embedded Python fragment: decoded JSON values
(`null`, booleans, numbers, strings, arrays, objects) plus parsed timestamps
(`time`) and hydrated model instances (`record tag attrs`, where `tag` is the
model class name and `attrs` its attribute dictionary). -/
inductive Value where
  | null
  | bool (b : Bool)
  | num (n : Int)
  | str (s : String)
  | time (t : DateTime)
  | arr (elems : List Value)
  | obj (fields : List (String × Value))
  | record (tag : String) (attrs : List (String × Value))

/-- The attribute dictionary of a constructed model instance. -/
def Model := List (String × Value)

/-- `value is None` (the check `dump` performs). -/
def Value.isNull : Value → Bool
  | Value.null => true
  | _ => false

/-- Whether the value is a decoded JSON mapping. -/
def Value.isObj : Value → Bool
  | Value.obj _ => true
  | _ => false

/-- Whether the value is a hydrated model instance. -/
def Value.isRecord : Value → Bool
  | Value.record _ _ => true
  | _ => false

/-- Python truthiness of the embedded values: `None`, `False`, `0`, `""`,
`[]` and `{}` are falsy; datetimes and model instances are always truthy. -/
def truthy : Value → Bool
  | Value.null => false
  | Value.bool b => b
  | Value.num n => n != 0
  | Value.str s => s != ""
  | Value.time _ => true
  | Value.arr elems => !elems.isEmpty
  | Value.obj fields => !fields.isEmpty
  | Value.record _ _ => true

/-- `getattr(self, k)`: the first binding of `k`, falling back to the
class-level default `None`. -/
def getAttr (m : Model) (k : String) : Value :=
  match m with
  | [] => Value.null
  | (k', v) :: rest => if k' = k then v else getAttr rest k

/-- `setattr(self, k, v)`: replace the binding of `k` in place, or append a new
one (Python dict/attribute update semantics). -/
def setAttr (m : Model) (k : String) (v : Value) : Model :=
  match m with
  | [] => [(k, v)]
  | (k', v') :: rest => if k' = k then (k, v) :: rest else (k', v') :: setAttr rest k v

/-- One `setattr` per mapping item, in order (the loop of
`ModelBase.__init__`). -/
def setAttrs (m : Model) : List (String × Value) → Model
  | [] => m
  | (k, v) :: rest => setAttrs (setAttr m k v) rest

/-- `ModelBase.__init__(self, session, **kwargs)`: store the context handle
under `session`, then set one attribute per mapping item. -/
def baseAttrs (session : Value) (kwargs : List (String × Value)) : Model :=
  setAttrs [("session", session)] kwargs

/-- `cls(session, **data_dict)` raises `TypeError` when a key of `data_dict`
collides with a name already bound positionally in `__init__(self, session,
**kwargs)` — that is, when the mapping contains the key `"session"` or
`"self"`. -/
def hasReservedKey (data : List (String × Value)) : Bool :=
  data.any (fun kv => kv.1 == "session" || kv.1 == "self")

/-- Python errors surfaced by construction: `parseError` is the `ValueError`
of `dateutil.parser.parse` on an unparseable string; `typeError` is a Python
`TypeError` (non-string passed to the parser, `**` applied to a non-mapping,
or a keyword argument colliding with a positional parameter). -/
inductive PyError where
  | parseError
  | typeError
deriving DecidableEq, Repr

/-- `ModelBase.dump`: iterate `__dump_attributes__` in order and collect the
attributes whose value `is not None`, each under its own name (insertion order
of the result dict follows the allow-list). -/
def ModelBase.dump (dumpAttributes : List String) (m : Model) : List (String × Value) :=
  match dumpAttributes with
  | [] => []
  | a :: rest =>
      let value := getAttr m a
      if value.isNull then ModelBase.dump rest m
      else (a, value) :: ModelBase.dump rest m

/-- `ModelBase.from_dict(cls, session, data_dict) = cls(session, **data_dict)`
for a model class `cls` (named by `tag`) with no post-construction step
(Category, CustomCategory, PaymentPartner, Credential, Challenge, ...). -/
def ModelBase.from_dict (tag : String) (session : Value) (data : List (String × Value)) :
    Except PyError Value :=
  if hasReservedKey data then Except.error PyError.typeError
  else Except.ok (Value.record tag (baseAttrs session data))

/-- `if self.name: self.name = dateutil.parser.parse(self.name)` — the
timestamp post-construction step shared by every type with declared timestamp
fields.  Skipped entirely when the current value is falsy; a truthy non-string
makes `dateutil.parser.parse` raise `TypeError`. -/
def parseTimestampField (m : Model) (name : String) : Except PyError Model :=
  if truthy (getAttr m name) then
    match getAttr m name with
    | Value.str s =>
        match parseDatetime s with
        | some d => Except.ok (setAttr m name (Value.time d))
        | none => Except.error PyError.parseError
    | _ => Except.error PyError.typeError
  else Except.ok m

/-- `NestedType.from_dict(session, v)` for one element `v`: `**v` requires a
mapping, anything else raises `TypeError`. -/
def hydrateOne (tag : String) (session : Value) : Value → Except PyError Value
  | Value.obj fields => ModelBase.from_dict tag session fields
  | _ => Except.error PyError.typeError

/-- `if self.name: self.name = NestedType.from_dict(session, self.name)` — the
single nested-object hydration step. -/
def hydrateField (tag : String) (session : Value) (m : Model) (name : String) :
    Except PyError Model :=
  if truthy (getAttr m name) then
    match hydrateOne tag session (getAttr m name) with
    | Except.ok v => Except.ok (setAttr m name v)
    | Except.error e => Except.error e
  else Except.ok m

/-- `[NestedType.from_dict(session, c) for c in elems]`, failing at the first
element that is not a mapping (or carries a reserved key). -/
def hydrateList (tag : String) (session : Value) : List Value → Except PyError (List Value)
  | [] => Except.ok []
  | v :: rest =>
      match hydrateOne tag session v, hydrateList tag session rest with
      | Except.ok r, Except.ok rs => Except.ok (r :: rs)
      | Except.error e, _ => Except.error e
      | _, Except.error e => Except.error e

/-- `if self.name: self.name = [NestedType.from_dict(session, c) for c in
self.name]` — the list nested-object hydration step.  Iterating a truthy
non-list value eventually raises `TypeError` in Python (its elements are not
mappings, or it is not iterable at all), collapsed here into `typeError`. -/
def hydrateListField (tag : String) (session : Value) (m : Model) (name : String) :
    Except PyError Model :=
  if truthy (getAttr m name) then
    match getAttr m name with
    | Value.arr elems =>
        match hydrateList tag session elems with
        | Except.ok rs => Except.ok (setAttr m name (Value.arr rs))
        | Except.error e => Except.error e
    | _ => Except.error PyError.typeError
  else Except.ok m

/-! ### Per-type `__dump_attributes__` allow-lists, copied from the source -/

/-- `ModelBase.__dump_attributes__` (also inherited by Account, AccountBalance). -/
def ModelBase.dump_attributes : List String := []

/-- `User.__dump_attributes__`. -/
def User.dump_attributes : List String := ["full_name", "language"]

/-- `LoginSettings.__dump_attributes__`. -/
def LoginSettings.dump_attributes : List String :=
  ["id", "name", "icon", "supported", "country", "language", "bic",
   "access_methods", "bank_code"]

/-- `Account.__dump_attributes__` (inherited from `ModelBase`). -/
def Account.dump_attributes : List String := []

/-- `AccountBalance.__dump_attributes__` (inherited from `ModelBase`). -/
def AccountBalance.dump_attributes : List String := []

/-- `Payment.__dump_attributes__`. -/
def Payment.dump_attributes : List String :=
  ["type", "name", "account_number", "bank_code", "amount", "currency", "purpose"]

/-- `StandingOrder.__dump_attributes__`. -/
def StandingOrder.dump_attributes : List String := []

/-- `Transaction.__dump_attributes__`. -/
def Transaction.dump_attributes : List String :=
  ["account_id", "transaction_id", "amount", "currency", "account_number",
   "bank_code", "iban", "bic", "bank_name", "booked", "booked_at", "settled_at",
   "booking_key", "booking_text", "categories", "contract_id", "custom_category",
   "creditor_id", "end_to_end_reference", "mandate_reference", "name",
   "prima_nota_number", "purpose", "sepa_purpose_code", "sepa_remittance_info",
   "transaction_code", "payment_partner", "type", "additional_info",
   "created_at", "modified_at"]

/-- `Category.__dump_attributes__`. -/
def Category.dump_attributes : List String := ["id", "parent_id", "name"]

/-- `CustomCategory.__dump_attributes__`. -/
def CustomCategory.dump_attributes : List String := ["id", "name"]

/-- `PaymentPartner.__dump_attributes__`. -/
def PaymentPartner.dump_attributes : List String := ["id", "name"]

/-- `Notification.__dump_attributes__`. -/
def Notification.dump_attributes : List String := ["observe_key", "notify_uri", "state"]

/-- `SynchronizationStatus.__dump_attributes__`. -/
def SynchronizationStatus.dump_attributes : List String := []

/-- `Sync.__dump_attributes__`. -/
def Sync.dump_attributes : List String :=
  ["id", "status", "state", "challenge", "error", "created_at", "started_at",
   "ended_at"]

/-- `WebhookNotification.__dump_attributes__`. -/
def WebhookNotification.dump_attributes : List String := []

/-- `Credential.__dump_attributes__`. -/
def Credential.dump_attributes : List String := ["label", "masked", "optional"]

/-- `Challenge.__dump_attributes__`. -/
def Challenge.dump_attributes : List String :=
  ["id", "title", "label", "format", "data", "type", "location", "created_at"]

/-- `Security.__dump_attributes__`. -/
def Security.dump_attributes : List String := []

/-- All per-type allow-lists declared in `figo/models.py` (one per class,
Account and AccountBalance inheriting the empty base list). -/
def allDumpAttributeLists : List (List String) :=
  [ModelBase.dump_attributes, User.dump_attributes, LoginSettings.dump_attributes,
   Account.dump_attributes, AccountBalance.dump_attributes, Payment.dump_attributes,
   StandingOrder.dump_attributes, Transaction.dump_attributes, Category.dump_attributes,
   CustomCategory.dump_attributes, PaymentPartner.dump_attributes,
   Notification.dump_attributes, SynchronizationStatus.dump_attributes,
   Sync.dump_attributes, WebhookNotification.dump_attributes, Credential.dump_attributes,
   Challenge.dump_attributes, Security.dump_attributes]

/-! ### Per-type constructors -/

/-- `User.__init__`: base construction followed by the `created_at`
timestamp step. -/
def User.init (session : Value) (kwargs : List (String × Value)) : Except PyError Model :=
  parseTimestampField (baseAttrs session kwargs) "created_at"

/-- `User.from_dict(session, data_dict)`. -/
def User.from_dict (session : Value) (data : List (String × Value)) : Except PyError Model :=
  if hasReservedKey data then Except.error PyError.typeError
  else User.init session data

/-- `Category.from_dict(session, data_dict)` (no post-construction step). -/
def Category.from_dict (session : Value) (data : List (String × Value)) :
    Except PyError Value :=
  ModelBase.from_dict "Category" session data

/-- `CustomCategory.from_dict(session, data_dict)` (no post-construction step). -/
def CustomCategory.from_dict (session : Value) (data : List (String × Value)) :
    Except PyError Value :=
  ModelBase.from_dict "CustomCategory" session data

/-- `PaymentPartner.from_dict(session, data_dict)` (no post-construction step). -/
def PaymentPartner.from_dict (session : Value) (data : List (String × Value)) :
    Except PyError Value :=
  ModelBase.from_dict "PaymentPartner" session data

/-- `Challenge.from_dict(session, data_dict)` (no post-construction step). -/
def Challenge.from_dict (session : Value) (data : List (String × Value)) :
    Except PyError Value :=
  ModelBase.from_dict "Challenge" session data

/-- `Transaction.__init__`: base construction, then the four timestamp steps
(`created_at`, `modified_at`, `booked_at`, `settled_at`), then hydration of
`categories` (list of Category), `custom_category` (CustomCategory) and
`payment_partner` (PaymentPartner), in source order. -/
def Transaction.init (session : Value) (kwargs : List (String × Value)) :
    Except PyError Model :=
  match parseTimestampField (baseAttrs session kwargs) "created_at" with
  | Except.error e => Except.error e
  | Except.ok m1 =>
    match parseTimestampField m1 "modified_at" with
    | Except.error e => Except.error e
    | Except.ok m2 =>
      match parseTimestampField m2 "booked_at" with
      | Except.error e => Except.error e
      | Except.ok m3 =>
        match parseTimestampField m3 "settled_at" with
        | Except.error e => Except.error e
        | Except.ok m4 =>
          match hydrateListField "Category" session m4 "categories" with
          | Except.error e => Except.error e
          | Except.ok m5 =>
            match hydrateField "CustomCategory" session m5 "custom_category" with
            | Except.error e => Except.error e
            | Except.ok m6 =>
              hydrateField "PaymentPartner" session m6 "payment_partner"

/-- `Transaction.from_dict(session, data_dict)`. -/
def Transaction.from_dict (session : Value) (data : List (String × Value)) :
    Except PyError Model :=
  if hasReservedKey data then Except.error PyError.typeError
  else Transaction.init session data

/-- `Sync.__init__`: base construction, then the three timestamp steps
(`created_at`, `started_at`, `ended_at`), then hydration of `challenge`
into a Challenge. -/
def Sync.init (session : Value) (kwargs : List (String × Value)) : Except PyError Model :=
  match parseTimestampField (baseAttrs session kwargs) "created_at" with
  | Except.error e => Except.error e
  | Except.ok m1 =>
    match parseTimestampField m1 "started_at" with
    | Except.error e => Except.error e
    | Except.ok m2 =>
      match parseTimestampField m2 "ended_at" with
      | Except.error e => Except.error e
      | Except.ok m3 =>
        hydrateField "Challenge" session m3 "challenge"

/-- `Sync.from_dict(session, data_dict)`. -/
def Sync.from_dict (session : Value) (data : List (String × Value)) : Except PyError Model :=
  if hasReservedKey data then Except.error PyError.typeError
  else Sync.init session data

/-- The `__dump_attributes__` consulted by `instance.dump()` for the nested
model classes that can appear as attribute values. -/
def dumpAttributesFor (tag : String) : List String :=
  if tag = "Challenge" then Challenge.dump_attributes
  else if tag = "Category" then Category.dump_attributes
  else if tag = "CustomCategory" then CustomCategory.dump_attributes
  else if tag = "PaymentPartner" then PaymentPartner.dump_attributes
  else []

/-- `Sync.dump`: the generic allow-list dump, then — when `self.challenge` is
truthy — overwrite the `challenge` entry with `self.challenge.dump()`
(`dict.update` replaces the entry in place when the key already exists).
After `Sync.__init__`, a truthy challenge is always a hydrated model instance
(`Value.record`); the function is defined on such constructed records. -/
def Sync.dump (m : Model) : List (String × Value) :=
  match getAttr m "challenge" with
  | Value.record tag attrs =>
      setAttr (ModelBase.dump Sync.dump_attributes m) "challenge"
        (Value.obj (ModelBase.dump (dumpAttributesFor tag) attrs))
  | _ => ModelBase.dump Sync.dump_attributes m

/-! ### Exception classification (modelled from the spec) -/

/-- Field lookup in a decoded JSON object; `null` for anything absent or for a
non-object. -/
def getField : Value → String → Value
  | Value.obj fields, k => getAttr fields k
  | _, _ => Value.null

/-- Modelled from the spec: the classified error produced by
`FigoException.from_dict` in `figo/exceptions.py`, which is not among the
provided sources (only its test is).  Per the spec (section 4.4) it exposes a
numeric status code, a numeric-or-null error code, a short summary string and
a detailed message string. -/
structure FigoException where
  status : Value
  error_code : Value
  summary : Value
  message : Value

/-- Modelled from the spec: `FigoException.from_dict` normalizes the two
historical error-payload shapes (fields under an `error` key, the payload also
carrying the HTTP `status`).  The summary prefers `name` when present, falling
back to `description`; the detailed message falls back from `message` to
`description` likewise, so both shapes normalize to equivalent semantics. -/
def FigoException.from_dict (payload : Value) : FigoException :=
  let err := getField payload "error"
  let name := getField err "name"
  let desc := getField err "description"
  let msg := getField err "message"
  { status := getField payload "status"
    error_code := getField err "code"
    summary := if name.isNull then desc else name
    message := if msg.isNull then desc else msg }

/-- The legacy error payload shape from the repository's test suite
(`OLD_ERROR_FORMAT` in `tests/test_models.py`): fields `code`, `data`,
`description`, `group`, `message`, `name` under the `error` key, plus the
HTTP status. -/
def oldErrorPayload : Value :=
  Value.obj
    [("error", Value.obj
        [("code", Value.null), ("data", Value.obj []), ("description", Value.null),
         ("group", Value.str "unknown"), ("message", Value.str "Unsupported language"),
         ("name", Value.str "Not Acceptable")]),
     ("status", Value.num 406)]

/-- The current error payload shape from the repository's test suite
(`NEW_ERROR_FORMAT` in `tests/test_models.py`): only `code`, `data`,
`description`, `group` under the `error` key, plus the HTTP status. -/
def newErrorPayload : Value :=
  Value.obj
    [("error", Value.obj
        [("code", Value.num 1000), ("data", Value.obj []),
         ("description", Value.str "Unsupported language"),
         ("group", Value.str "client")]),
     ("status", Value.num 406)]

/-! ### Helper lemmas -/

theorem Value.isNull_iff (v : Value) : v.isNull = true ↔ v = Value.null := by
  cases v <;> simp [Value.isNull]

theorem getAttr_setAttr_self (m : Model) (k : String) (v : Value) :
    getAttr (setAttr m k v) k = v := by
  induction m with
  | nil => simp [setAttr, getAttr]
  | cons hd tl ih =>
      obtain ⟨k', v'⟩ := hd
      by_cases h : k' = k
      · simp [setAttr, h, getAttr]
      · simp [setAttr, h, getAttr, ih]

theorem getAttr_setAttr_ne (m : Model) (k k2 : String) (v : Value) (h : k2 ≠ k) :
    getAttr (setAttr m k v) k2 = getAttr m k2 := by
  induction m with
  | nil => simp [setAttr, getAttr, Ne.symm h]
  | cons hd tl ih =>
      obtain ⟨k', v'⟩ := hd
      by_cases hk : k' = k
      · subst hk
        simp [setAttr, getAttr, Ne.symm h]
      · simp [setAttr, hk, getAttr, ih]

theorem mem_keys_setAttr {m : Model} {k x : String} {v : Value}
    (h : x ∈ (setAttr m k v).map Prod.fst) : x ∈ m.map Prod.fst ∨ x = k := by
  induction m with
  | nil =>
      right
      simp only [setAttr, List.map_cons, List.map_nil, List.mem_singleton] at h
      exact h
  | cons hd tl ih =>
      obtain ⟨k', v'⟩ := hd
      by_cases hk : k' = k
      · simp only [setAttr, if_pos hk, List.map_cons, List.mem_cons] at h
        rcases h with h | h
        · right; exact h
        · left
          rw [List.map_cons, List.mem_cons]
          right; exact h
      · simp only [setAttr, if_neg hk, List.map_cons, List.mem_cons] at h
        rcases h with h | h
        · left
          rw [List.map_cons, List.mem_cons]
          left; exact h
        · rcases ih h with h2 | h2
          · left
            rw [List.map_cons, List.mem_cons]
            right; exact h2
          · right; exact h2

theorem keys_setAttr_of_mem {m : Model} {k : String} {v : Value}
    (h : k ∈ m.map Prod.fst) : (setAttr m k v).map Prod.fst = m.map Prod.fst := by
  induction m with
  | nil => simp at h
  | cons hd tl ih =>
      obtain ⟨k', v'⟩ := hd
      by_cases hk : k' = k
      · subst hk
        simp [setAttr]
      · rw [List.map_cons, List.mem_cons] at h
        rcases h with h | h
        · exact absurd h.symm hk
        · simp only [setAttr, if_neg hk, List.map_cons]
          rw [ih h]

theorem getAttr_setAttrs_not_mem :
    ∀ (l : List (String × Value)) (m : Model) (k : String), k ∉ l.map Prod.fst →
      getAttr (setAttrs m l) k = getAttr m k := by
  intro l
  induction l with
  | nil => intro m k _; rfl
  | cons hd tl ih =>
      intro m k hk
      obtain ⟨k1, v1⟩ := hd
      simp only [List.map_cons, List.mem_cons, not_or] at hk
      rw [setAttrs, ih (setAttr m k1 v1) k hk.2]
      exact getAttr_setAttr_ne m k1 k v1 hk.1

theorem getAttr_setAttrs_mem :
    ∀ (l : List (String × Value)) (m : Model) (k : String) (v : Value),
      (l.map Prod.fst).Nodup → (k, v) ∈ l →
      getAttr (setAttrs m l) k = v := by
  intro l
  induction l with
  | nil => intro m k v _ hmem; simp at hmem
  | cons hd tl ih =>
      intro m k v hnd hmem
      obtain ⟨k1, v1⟩ := hd
      rw [List.map_cons, List.nodup_cons] at hnd
      rcases List.mem_cons.mp hmem with h | h
      · injection h with h1 h2
        subst h1; subst h2
        rw [setAttrs]
        rw [getAttr_setAttrs_not_mem tl (setAttr m k v) k hnd.1]
        exact getAttr_setAttr_self m k v
      · exact ih (setAttr m k1 v1) k v hnd.2 h

theorem getAttr_baseAttrs_not_mem (session : Value) (l : List (String × Value)) (k : String)
    (hk : k ∉ l.map Prod.fst) (hks : k ≠ "session") :
    getAttr (baseAttrs session l) k = Value.null := by
  unfold baseAttrs
  rw [getAttr_setAttrs_not_mem l _ k hk]
  simp [getAttr, Ne.symm hks]

theorem getAttr_baseAttrs_mem (session : Value) (l : List (String × Value)) (k : String)
    (v : Value) (hnd : (l.map Prod.fst).Nodup) (hmem : (k, v) ∈ l) :
    getAttr (baseAttrs session l) k = v :=
  getAttr_setAttrs_mem l _ k v hnd hmem

theorem getAttr_baseAttrs_session (session : Value) (l : List (String × Value))
    (hk : "session" ∉ l.map Prod.fst) :
    getAttr (baseAttrs session l) "session" = session := by
  unfold baseAttrs
  rw [getAttr_setAttrs_not_mem l _ _ hk]
  rfl

theorem dump_eq_filterMap (allow : List String) (m : Model) :
    ModelBase.dump allow m
      = (allow.filter (fun a => !(getAttr m a).isNull)).map (fun a => (a, getAttr m a)) := by
  induction allow with
  | nil => rfl
  | cons a rest ih =>
      by_cases h : (getAttr m a).isNull
      · simp [ModelBase.dump, h, ih]
      · simp [ModelBase.dump, h, ih]

theorem dump_keys_eq (allow : List String) (m : Model) :
    (ModelBase.dump allow m).map Prod.fst
      = allow.filter (fun a => !(getAttr m a).isNull) := by
  induction allow with
  | nil => rfl
  | cons a rest ih =>
      by_cases h : (getAttr m a).isNull
      · simp [ModelBase.dump, h, ih]
      · simp [ModelBase.dump, h, ih]

theorem dump_keys_subset {allow : List String} {m : Model} {a : String}
    (h : a ∈ (ModelBase.dump allow m).map Prod.fst) : a ∈ allow := by
  rw [dump_keys_eq] at h
  exact List.mem_filter.mp h |>.1

theorem mem_dump_of_not_null {allow : List String} {m : Model} {a : String}
    (ha : a ∈ allow) (hv : (getAttr m a).isNull = false) :
    (a, getAttr m a) ∈ ModelBase.dump allow m := by
  rw [dump_eq_filterMap]
  exact List.mem_map.mpr ⟨a, List.mem_filter.mpr ⟨ha, by simp [hv]⟩, rfl⟩

theorem not_mem_dump_keys_of_null {allow : List String} {m : Model} {a : String}
    (hv : (getAttr m a).isNull = true) :
    a ∉ (ModelBase.dump allow m).map Prod.fst := by
  rw [dump_keys_eq]
  intro h
  have := List.mem_filter.mp h |>.2
  simp [hv] at this

theorem dump_keys_nodup {allow : List String} (m : Model) (h : allow.Nodup) :
    ((ModelBase.dump allow m).map Prod.fst).Nodup := by
  rw [dump_keys_eq]
  exact h.filter _

theorem keys_of_not_reserved {l : List (String × Value)} (h : hasReservedKey l = false) :
    "session" ∉ l.map Prod.fst ∧ "self" ∉ l.map Prod.fst := by
  constructor <;>
  · intro hmem
    obtain ⟨kv, hkv, hfst⟩ := List.mem_map.mp hmem
    have htrue : hasReservedKey l = true :=
      List.any_eq_true.mpr ⟨kv, hkv, by simp [hfst]⟩
    rw [htrue] at h
    exact Bool.noConfusion h

theorem hasReservedKey_eq_false {l : List (String × Value)}
    (h1 : "session" ∉ l.map Prod.fst) (h2 : "self" ∉ l.map Prod.fst) :
    hasReservedKey l = false := by
  cases hb : hasReservedKey l with
  | false => rfl
  | true =>
      obtain ⟨kv, hkv, hp⟩ := List.any_eq_true.mp hb
      rcases Bool.or_eq_true _ _ |>.mp hp with h | h
      · exact absurd (List.mem_map.mpr ⟨kv, hkv, by simpa using h⟩) h1
      · exact absurd (List.mem_map.mpr ⟨kv, hkv, by simpa using h⟩) h2

theorem parseTimestampField_ok_ne {m m' : Model} {name k : String}
    (h : parseTimestampField m name = Except.ok m') (hk : k ≠ name) :
    getAttr m' k = getAttr m k := by
  unfold parseTimestampField at h
  split at h
  · split at h
    · split at h
      · injection h with h
        subst h
        exact getAttr_setAttr_ne m name k _ hk
      · exact Except.noConfusion h
    · exact Except.noConfusion h
  · injection h with h
    subst h
    rfl

theorem hydrateField_ok_ne {tag : String} {session : Value} {m m' : Model} {name k : String}
    (h : hydrateField tag session m name = Except.ok m') (hk : k ≠ name) :
    getAttr m' k = getAttr m k := by
  unfold hydrateField at h
  split at h
  · split at h
    · injection h with h
      subst h
      exact getAttr_setAttr_ne m name k _ hk
    · exact Except.noConfusion h
  · injection h with h
    subst h
    rfl

theorem hydrateListField_ok_ne {tag : String} {session : Value} {m m' : Model} {name k : String}
    (h : hydrateListField tag session m name = Except.ok m') (hk : k ≠ name) :
    getAttr m' k = getAttr m k := by
  unfold hydrateListField at h
  split at h
  · split at h
    · split at h
      · injection h with h
        subst h
        exact getAttr_setAttr_ne m name k _ hk
      · exact Except.noConfusion h
    · exact Except.noConfusion h
  · injection h with h
    subst h
    rfl

/-! ### Claims -/

/-- Claim C1: for every record type and source mapping, `dump` iterates the
type's declared allow-list in order and includes exactly the allow-listed
fields whose current value is not null, each under its own name; fields not in
the allow-list are never emitted, and the result is empty when the allow-list
is empty or every listed field is null.  The first conjunct characterizes the
generic `ModelBase.dump` as exactly the in-order filter of the allow-list by
non-nullness (all of the above are corollaries of that equation, with the
declared allow-lists duplicate-free as in the source); the second conjunct
shows that `Sync`'s overriding `dump` emits exactly the same key set in the
same order (it only overwrites the value at `challenge`). -/
theorem claim1_dump_allow_list :
    (∀ (allow : List String) (m : Model), allow.Nodup →
        ModelBase.dump allow m
          = (allow.filter (fun a => !(getAttr m a).isNull)).map (fun a => (a, getAttr m a)))
  ∧ (∀ m : Model, (Sync.dump m).map Prod.fst
        = (ModelBase.dump Sync.dump_attributes m).map Prod.fst) := by
  constructor
  · intro allow m _
    exact dump_eq_filterMap allow m
  · intro m
    unfold Sync.dump
    cases hch : getAttr m "challenge"
    case record tag attrs =>
        have hnn : (getAttr m "challenge").isNull = false := by rw [hch]; rfl
        have hmem : ("challenge", getAttr m "challenge")
            ∈ ModelBase.dump Sync.dump_attributes m :=
          mem_dump_of_not_null (by decide) hnn
        exact keys_setAttr_of_mem (List.mem_map.mpr ⟨_, hmem, rfl⟩)
    all_goals rfl

/-- Witness for C1 at a concrete record and allow-list. -/
theorem claim1_witness :
    ModelBase.dump User.dump_attributes [("session", Value.str "s0"), ("full_name", Value.str "John Doe")]
      = (User.dump_attributes.filter
          (fun a => !(getAttr [("session", Value.str "s0"), ("full_name", Value.str "John Doe")] a).isNull)).map
          (fun a => (a, getAttr [("session", Value.str "s0"), ("full_name", Value.str "John Doe")] a)) :=
  claim1_dump_allow_list.1 User.dump_attributes
    [("session", Value.str "s0"), ("full_name", Value.str "John Doe")] (by decide)

/-- Claim C2 (as amended): for every declared timestamp field, a present
parseable ISO-8601 string is replaced by the parsed structured timestamp
(`"2018-08-30T00:00:00.000Z"` parses to 2018-08-30T00:00:00 UTC); a present
NON-EMPTY malformed string makes construction fail with a parse error
propagated to the caller (shown both for the shared timestamp step and
end-to-end for `User`); an absent (null) field is left null and does not
raise.  The empty string, being falsy, is skipped unparsed (see the
counterexample). -/
theorem claim2_timestamp_hydration :
    (∀ (m : Model) (name s : String) (d : DateTime),
        getAttr m name = Value.str s → parseDatetime s = some d →
        parseTimestampField m name = Except.ok (setAttr m name (Value.time d)))
  ∧ (∀ (m : Model) (name s : String),
        getAttr m name = Value.str s → s ≠ "" → parseDatetime s = none →
        parseTimestampField m name = Except.error PyError.parseError)
  ∧ (∀ (m : Model) (name : String),
        getAttr m name = Value.null → parseTimestampField m name = Except.ok m)
  ∧ parseDatetime "2018-08-30T00:00:00.000Z" = some ⟨2018, 8, 30, 0, 0, 0, 0, true⟩
  ∧ User.from_dict (Value.str "s0") [("created_at", Value.str "not-a-date")]
      = Except.error PyError.parseError := by
  refine ⟨?_, ?_, ?_, rfl, rfl⟩
  · intro m name s d hget hparse
    have hs : s ≠ "" := by
      intro hs0
      subst hs0
      exact Option.noConfusion ((show parseDatetime "" = none from rfl) ▸ hparse)
    unfold parseTimestampField
    rw [hget]
    simp [truthy, hs, hparse]
  · intro m name s hget hs hparse
    unfold parseTimestampField
    rw [hget]
    simp [truthy, hs, hparse]
  · intro m name hget
    unfold parseTimestampField
    rw [hget]
    rfl

/-- Counterexample to C2 as stated: the empty string is a present value in the
declared timestamp field `created_at` that `parseDatetime` (like dateutil)
cannot parse, yet construction neither parses it nor raises — it is left
exactly as supplied, because the post-construction step is gated on Python
truthiness and `""` is falsy. -/
theorem claim2_counterexample :
    parseDatetime "" = none
    ∧ User.from_dict (Value.str "s0") [("created_at", Value.str "")]
        = Except.ok [("session", Value.str "s0"), ("created_at", Value.str "")] :=
  ⟨rfl, rfl⟩

/-- Witness for C2 at a concrete record holding a parseable timestamp string. -/
theorem claim2_witness :
    parseTimestampField [("created_at", Value.str "2018-08-30T00:00:00.000Z")] "created_at"
      = Except.ok [("created_at", Value.time ⟨2018, 8, 30, 0, 0, 0, 0, true⟩)] :=
  claim2_timestamp_hydration.1 _ "created_at" _ _ rfl rfl

/-- Claim C3 (as amended): construction never fails on unknown or missing
fields — every declared-but-unsupplied field reads as null and every unknown
key is silently retained as a plain attribute with its value — EXCEPT that a
mapping key colliding with a positional parameter of the constructor
(`"session"` or `"self"`) raises `TypeError`, because `from_dict` forwards the
mapping as `cls(session, **data_dict)` (see the counterexample). -/
theorem claim3_permissive_construction :
    (∀ (tag : String) (session : Value) (data : List (String × Value)),
        hasReservedKey data = false →
        ModelBase.from_dict tag session data
          = Except.ok (Value.record tag (baseAttrs session data)))
  ∧ (∀ (session : Value) (data : List (String × Value)) (k : String) (v : Value),
        (data.map Prod.fst).Nodup → (k, v) ∈ data →
        getAttr (baseAttrs session data) k = v)
  ∧ (∀ (session : Value) (data : List (String × Value)) (k : String),
        k ∉ data.map Prod.fst → k ≠ "session" →
        getAttr (baseAttrs session data) k = Value.null) := by
  refine ⟨?_, ?_, ?_⟩
  · intro tag session data h
    unfold ModelBase.from_dict
    rw [h]
    rfl
  · intro session data k v hnd hmem
    exact getAttr_setAttrs_mem data _ k v hnd hmem
  · intro session data k hk hks
    unfold baseAttrs
    rw [getAttr_setAttrs_not_mem data _ k hk]
    simp [getAttr, Ne.symm hks]

/-- Counterexample to C3 as stated: the mapping `⦃"session": "x"⦄` contains
only a key not declared by the type, yet construction fails with `TypeError`
(`Category.from_dict(session, data) = cls(session, **data)` binds `session`
twice), so construction does not succeed for "any source mapping whatsoever". -/
theorem claim3_counterexample :
    Category.from_dict (Value.str "s0") [("session", Value.str "x")]
      = Except.error PyError.typeError := rfl

/-- Witness for C3 at a concrete unknown-key mapping. -/
theorem claim3_witness :
    ModelBase.from_dict "Category" (Value.str "s0") [("foo", Value.num 1)]
      = Except.ok (Value.record "Category" (baseAttrs (Value.str "s0") [("foo", Value.num 1)])) :=
  claim3_permissive_construction.1 "Category" (Value.str "s0") [("foo", Value.num 1)] rfl

/-- Claim C4 (as amended): for record types whose construction applies no
post-construction hydration (the generic base behavior — e.g. Category,
Credential, Challenge, Notification, LoginSettings), serializing a freshly
constructed record and re-constructing a record of the same type from that
output reproduces the same allow-listed field values.  For types that hydrate
allow-listed fields, re-construction from the dump fails with `TypeError`
instead, because the dumped timestamp values are no longer strings (see the
counterexample), so the claim cannot hold for every record type. -/
theorem claim4_base_roundtrip :
    ∀ (tag : String) (session session2 : Value) (allow : List String)
      (data : List (String × Value)),
      hasReservedKey data = false → allow.Nodup →
      "session" ∉ allow → "self" ∉ allow →
      ModelBase.from_dict tag session data
        = Except.ok (Value.record tag (baseAttrs session data))
      ∧ ModelBase.from_dict tag session2 (ModelBase.dump allow (baseAttrs session data))
          = Except.ok (Value.record tag
              (baseAttrs session2 (ModelBase.dump allow (baseAttrs session data))))
      ∧ ∀ a ∈ allow,
          getAttr (baseAttrs session2 (ModelBase.dump allow (baseAttrs session data))) a
            = getAttr (baseAttrs session data) a := by
  intro tag session session2 allow data hres hnd hsess hself
  have hdres : hasReservedKey (ModelBase.dump allow (baseAttrs session data)) = false := by
    apply hasReservedKey_eq_false
    · intro h
      exact hsess (dump_keys_subset h)
    · intro h
      exact hself (dump_keys_subset h)
  refine ⟨by unfold ModelBase.from_dict; rw [hres]; rfl,
          by unfold ModelBase.from_dict; rw [hdres]; rfl, ?_⟩
  intro a ha
  cases hv : (getAttr (baseAttrs session data) a).isNull with
  | false =>
      have hmem : (a, getAttr (baseAttrs session data) a)
          ∈ ModelBase.dump allow (baseAttrs session data) :=
        mem_dump_of_not_null ha hv
      have hknd : ((ModelBase.dump allow (baseAttrs session data)).map Prod.fst).Nodup :=
        dump_keys_nodup _ hnd
      exact getAttr_baseAttrs_mem session2 _ a _ hknd hmem
  | true =>
      have hnk : a ∉ (ModelBase.dump allow (baseAttrs session data)).map Prod.fst :=
        not_mem_dump_keys_of_null hv
      have hane : a ≠ "session" := fun h => hsess (h ▸ ha)
      rw [(Value.isNull_iff _).mp hv]
      exact getAttr_baseAttrs_not_mem session2 _ a hnk hane

/-- Counterexample to C4 as stated: a Transaction constructed from a mapping
holding a `created_at` timestamp string serializes that field as the parsed
structured timestamp; re-constructing a Transaction from the serialized
output then fails with `TypeError` (the timestamp step passes the structured
timestamp, not a string, to the parser), so no record — let alone one with
the same field values — is reproduced. -/
theorem claim4_counterexample :
    Transaction.from_dict (Value.str "s0")
        [("created_at", Value.str "2018-08-30T00:00:00.000Z")]
      = Except.ok [("session", Value.str "s0"),
                   ("created_at", Value.time ⟨2018, 8, 30, 0, 0, 0, 0, true⟩)]
    ∧ ModelBase.dump Transaction.dump_attributes
        [("session", Value.str "s0"),
         ("created_at", Value.time ⟨2018, 8, 30, 0, 0, 0, 0, true⟩)]
      = [("created_at", Value.time ⟨2018, 8, 30, 0, 0, 0, 0, true⟩)]
    ∧ Transaction.from_dict (Value.str "s0")
        [("created_at", Value.time ⟨2018, 8, 30, 0, 0, 0, 0, true⟩)]
      = Except.error PyError.typeError :=
  ⟨rfl, rfl, rfl⟩

/-- Witness for C4 at a concrete base-behavior type, mapping and allow-list. -/
theorem claim4_witness :
    getAttr (baseAttrs (Value.str "t0")
        (ModelBase.dump Category.dump_attributes
          (baseAttrs (Value.str "s0")
            [("id", Value.num 150), ("name", Value.str "Lebenshaltung"), ("extra", Value.num 7)]))) "id"
      = getAttr (baseAttrs (Value.str "s0")
          [("id", Value.num 150), ("name", Value.str "Lebenshaltung"), ("extra", Value.num 7)]) "id" :=
  (claim4_base_roundtrip "Category" (Value.str "s0") (Value.str "t0")
      Category.dump_attributes
      [("id", Value.num 150), ("name", Value.str "Lebenshaltung"), ("extra", Value.num 7)]
      rfl (by decide) (by decide) (by decide)).2.2 "id" (by decide)

/-- Claim C5: a Transaction constructed from a mapping whose `categories`
field is a list of two mappings gets, as its `categories` attribute, a list of
the two hydrated Category instances in source order (each built by
`Category.from_dict` from its mapping, hence exposing that mapping's `id`,
`parent_id` and `name` — Category's own allow-list is exactly those three
names); a source `categories` field holding the empty list is kept as the
empty list, not null. -/
theorem claim5_categories_hydration :
    (∀ (session : Value) (kwargs : List (String × Value))
       (c1 c2 : List (String × Value)) (r : Model),
        (kwargs.map Prod.fst).Nodup →
        ("categories", Value.arr [Value.obj c1, Value.obj c2]) ∈ kwargs →
        hasReservedKey c1 = false → hasReservedKey c2 = false →
        Transaction.from_dict session kwargs = Except.ok r →
        getAttr r "categories"
          = Value.arr [Value.record "Category" (baseAttrs session c1),
                       Value.record "Category" (baseAttrs session c2)])
  ∧ (∀ (session : Value) (kwargs : List (String × Value)) (r : Model),
        (kwargs.map Prod.fst).Nodup →
        ("categories", Value.arr []) ∈ kwargs →
        Transaction.from_dict session kwargs = Except.ok r →
        getAttr r "categories" = Value.arr [])
  ∧ Category.dump_attributes = ["id", "parent_id", "name"] := by
  refine ⟨?_, ?_, rfl⟩
  · intro session kwargs c1 c2 r hnd hmem hres1 hres2 hok
    have hcat0 : getAttr (baseAttrs session kwargs) "categories"
        = Value.arr [Value.obj c1, Value.obj c2] :=
      getAttr_setAttrs_mem kwargs _ _ _ hnd hmem
    unfold Transaction.from_dict at hok
    split at hok
    · exact Except.noConfusion hok
    · unfold Transaction.init at hok
      split at hok
      next e => exact Except.noConfusion hok
      next m1 heq1 =>
      split at hok
      next e => exact Except.noConfusion hok
      next m2 heq2 =>
      split at hok
      next e => exact Except.noConfusion hok
      next m3 heq3 =>
      split at hok
      next e => exact Except.noConfusion hok
      next m4 heq4 =>
      split at hok
      next e => exact Except.noConfusion hok
      next m5 heq5 =>
      split at hok
      next e => exact Except.noConfusion hok
      next m6 heq6 =>
      have hcat4 : getAttr m4 "categories" = Value.arr [Value.obj c1, Value.obj c2] := by
        rw [parseTimestampField_ok_ne heq4 (by decide),
            parseTimestampField_ok_ne heq3 (by decide),
            parseTimestampField_ok_ne heq2 (by decide),
            parseTimestampField_ok_ne heq1 (by decide)]
        exact hcat0
      have hm5 : m5 = setAttr m4 "categories"
          (Value.arr [Value.record "Category" (baseAttrs session c1),
                      Value.record "Category" (baseAttrs session c2)]) := by
        unfold hydrateListField at heq5
        rw [hcat4] at heq5
        simp [truthy, hydrateList, hydrateOne, ModelBase.from_dict, hres1, hres2] at heq5
        exact heq5.symm
      have hr5 : getAttr r "categories" = getAttr m5 "categories" := by
        rw [hydrateField_ok_ne hok (by decide), hydrateField_ok_ne heq6 (by decide)]
      rw [hr5, hm5]
      exact getAttr_setAttr_self m4 "categories" _
  · intro session kwargs r hnd hmem hok
    have hcat0 : getAttr (baseAttrs session kwargs) "categories" = Value.arr [] :=
      getAttr_setAttrs_mem kwargs _ _ _ hnd hmem
    unfold Transaction.from_dict at hok
    split at hok
    · exact Except.noConfusion hok
    · unfold Transaction.init at hok
      split at hok
      next e => exact Except.noConfusion hok
      next m1 heq1 =>
      split at hok
      next e => exact Except.noConfusion hok
      next m2 heq2 =>
      split at hok
      next e => exact Except.noConfusion hok
      next m3 heq3 =>
      split at hok
      next e => exact Except.noConfusion hok
      next m4 heq4 =>
      split at hok
      next e => exact Except.noConfusion hok
      next m5 heq5 =>
      split at hok
      next e => exact Except.noConfusion hok
      next m6 heq6 =>
      have hcat4 : getAttr m4 "categories" = Value.arr [] := by
        rw [parseTimestampField_ok_ne heq4 (by decide),
            parseTimestampField_ok_ne heq3 (by decide),
            parseTimestampField_ok_ne heq2 (by decide),
            parseTimestampField_ok_ne heq1 (by decide)]
        exact hcat0
      have hm5 : m5 = m4 := by
        unfold hydrateListField at heq5
        rw [hcat4] at heq5
        simp [truthy] at heq5
        exact heq5.symm
      have hr5 : getAttr r "categories" = getAttr m5 "categories" := by
        rw [hydrateField_ok_ne hok (by decide), hydrateField_ok_ne heq6 (by decide)]
      rw [hr5, hm5]
      exact hcat4

/-- Witness for C5 at the two category mappings of the repository's test
suite. -/
theorem claim5_witness :
    Transaction.from_dict (Value.str "s0")
        [("categories", Value.arr
          [Value.obj [("parent_id", Value.null), ("id", Value.num 150),
                      ("name", Value.str "Lebenshaltung")],
           Value.obj [("parent_id", Value.num 150), ("id", Value.num 162),
                      ("name", Value.str "Spende")]])]
      = Except.ok [("session", Value.str "s0"),
          ("categories", Value.arr
            [Value.record "Category" [("session", Value.str "s0"), ("parent_id", Value.null),
               ("id", Value.num 150), ("name", Value.str "Lebenshaltung")],
             Value.record "Category" [("session", Value.str "s0"), ("parent_id", Value.num 150),
               ("id", Value.num 162), ("name", Value.str "Spende")]])]
    ∧ getAttr [("session", Value.str "s0"),
          ("categories", Value.arr
            [Value.record "Category" [("session", Value.str "s0"), ("parent_id", Value.null),
               ("id", Value.num 150), ("name", Value.str "Lebenshaltung")],
             Value.record "Category" [("session", Value.str "s0"), ("parent_id", Value.num 150),
               ("id", Value.num 162), ("name", Value.str "Spende")]])] "categories"
        = Value.arr
            [Value.record "Category" (baseAttrs (Value.str "s0")
               [("parent_id", Value.null), ("id", Value.num 150),
                ("name", Value.str "Lebenshaltung")]),
             Value.record "Category" (baseAttrs (Value.str "s0")
               [("parent_id", Value.num 150), ("id", Value.num 162),
                ("name", Value.str "Spende")])] :=
  ⟨rfl,
   claim5_categories_hydration.1 (Value.str "s0") _ _ _ _ (by decide)
     (List.mem_singleton.mpr rfl) rfl rfl rfl⟩

/-- Claim C6 (as amended): for every Sync record whose `challenge` field is
truthy after construction — i.e. was hydrated into a nested Challenge
instance — serialization produces the generic allow-list dump with the
`challenge` entry overwritten by the Challenge's own recursive serialization
(its full non-null field set under Challenge's own allow-list).  A non-null
but falsy `challenge` is left as the raw supplied value and is NOT overridden
(see the counterexample), so "non-null" alone is not sufficient. -/
theorem claim6_sync_challenge_dump :
    ∀ (session : Value) (kwargs : List (String × Value)) (r : Model)
      (attrs : List (String × Value)),
      Sync.from_dict session kwargs = Except.ok r →
      getAttr r "challenge" = Value.record "Challenge" attrs →
      Sync.dump r
        = setAttr (ModelBase.dump Sync.dump_attributes r) "challenge"
            (Value.obj (ModelBase.dump Challenge.dump_attributes attrs)) := by
  intro session kwargs r attrs _ hch
  unfold Sync.dump
  rw [hch]
  rfl

/-- Counterexample to C6 as stated: a Sync constructed from
`⦃"challenge": ""⦄` has a non-null `challenge` after construction, yet no
nested Challenge instance exists (the falsy value was not hydrated) and
serialization emits the raw string unchanged — not any Challenge's recursive
serialization, which would be a mapping. -/
theorem claim6_counterexample :
    Sync.from_dict (Value.str "s0") [("challenge", Value.str "")]
      = Except.ok [("session", Value.str "s0"), ("challenge", Value.str "")]
    ∧ (getAttr [("session", Value.str "s0"), ("challenge", Value.str "")] "challenge").isNull
        = false
    ∧ (getAttr [("session", Value.str "s0"), ("challenge", Value.str "")] "challenge").isRecord
        = false
    ∧ Sync.dump [("session", Value.str "s0"), ("challenge", Value.str "")]
        = [("challenge", Value.str "")]
    ∧ (getAttr (Sync.dump [("session", Value.str "s0"), ("challenge", Value.str "")])
         "challenge").isObj = false :=
  ⟨rfl, rfl, rfl, rfl, rfl⟩

/-- Witness for C6 at a concrete Sync built from the test suite's challenge
mapping. -/
theorem claim6_witness :
    Sync.dump [("session", Value.str "s0"),
        ("challenge", Value.record "Challenge"
          [("session", Value.str "s0"), ("title", Value.str "Pin Eingabe")])]
      = setAttr (ModelBase.dump Sync.dump_attributes
            [("session", Value.str "s0"),
             ("challenge", Value.record "Challenge"
               [("session", Value.str "s0"), ("title", Value.str "Pin Eingabe")])])
          "challenge"
          (Value.obj (ModelBase.dump Challenge.dump_attributes
            [("session", Value.str "s0"), ("title", Value.str "Pin Eingabe")])) :=
  claim6_sync_challenge_dump (Value.str "s0")
    [("challenge", Value.obj [("title", Value.str "Pin Eingabe")])] _ _ rfl rfl

/-- Claim C7 (modelled from the spec, `figo/exceptions.py` being absent from
the sources): classifying the legacy error shape (with `name` and `message`)
at status 406 yields summary `"Not Acceptable"`; classifying the current
shape (only `code`, `description`, `group`) yields summary
`"Unsupported language"`, error code 1000 and status 406 — the summary
prefers `name` when present and falls back to `description`. -/
theorem claim7_exception_classification :
    (FigoException.from_dict oldErrorPayload).summary = Value.str "Not Acceptable"
    ∧ (FigoException.from_dict oldErrorPayload).status = Value.num 406
    ∧ (FigoException.from_dict newErrorPayload).summary = Value.str "Unsupported language"
    ∧ (FigoException.from_dict newErrorPayload).error_code = Value.num 1000
    ∧ (FigoException.from_dict newErrorPayload).status = Value.num 406 :=
  ⟨rfl, rfl, rfl, rfl, rfl⟩

/-- Claim C8: constructing a User from the spec's concrete five-field mapping
and then serializing it yields exactly the two-entry mapping of `full_name`
and `language`, and nothing else (in particular neither the parsed
`created_at` nor `email` nor `id`), for any context handle. -/
theorem claim8_user_dump_exact :
    ∀ session : Value,
      (User.from_dict session
        [("full_name", Value.str "John Doe"), ("language", Value.str "en"),
         ("email", Value.str "demo@figo.me"), ("id", Value.str "U12345"),
         ("created_at", Value.str "2012-04-19T17:25:54.000Z")]).map
          (ModelBase.dump User.dump_attributes)
      = Except.ok [("full_name", Value.str "John Doe"), ("language", Value.str "en")] :=
  fun _ => rfl

/-- Claim C9: every per-type post-construction step is gated on truthiness of
the current value, not mere presence: an empty string in a timestamp field is
neither parsed nor raises, an empty mapping in a single-nested-object field
stays a plain mapping, and an empty list in a list-hydrated field stays the
empty list — shown generically for the three shared steps and end-to-end for
a Transaction supplied with all three falsy values at once. -/
theorem claim9_falsy_gating :
    (∀ (m : Model) (name : String), getAttr m name = Value.str "" →
        parseTimestampField m name = Except.ok m)
  ∧ (∀ (tag : String) (session : Value) (m : Model) (name : String),
        getAttr m name = Value.obj [] → hydrateField tag session m name = Except.ok m)
  ∧ (∀ (tag : String) (session : Value) (m : Model) (name : String),
        getAttr m name = Value.arr [] → hydrateListField tag session m name = Except.ok m)
  ∧ Transaction.from_dict (Value.str "s0")
      [("created_at", Value.str ""), ("custom_category", Value.obj []),
       ("categories", Value.arr [])]
      = Except.ok [("session", Value.str "s0"), ("created_at", Value.str ""),
                   ("custom_category", Value.obj []), ("categories", Value.arr [])] := by
  refine ⟨?_, ?_, ?_, rfl⟩
  · intro m name hget
    unfold parseTimestampField
    rw [hget]
    rfl
  · intro tag session m name hget
    unfold hydrateField
    rw [hget]
    rfl
  · intro tag session m name hget
    unfold hydrateListField
    rw [hget]
    rfl

/-- Witness for C9 at a concrete record with an empty-string timestamp. -/
theorem claim9_witness :
    parseTimestampField [("created_at", Value.str "")] "created_at"
      = Except.ok [("created_at", Value.str "")] :=
  claim9_falsy_gating.1 _ "created_at" rfl

/-- Claim C10: the stored context handle never appears in serialized output:
base construction sets the `session` attribute on every record (first
conjunct), the generic dump emits only allow-listed keys (second conjunct),
no declared allow-list of any record type contains `"session"` (third
conjunct, by enumeration of every list in the source), and Sync's overriding
dump also never emits it (fourth conjunct). -/
theorem claim10_session_never_dumped :
    (∀ (session : Value) (kwargs : List (String × Value)),
        hasReservedKey kwargs = false →
        getAttr (baseAttrs session kwargs) "session" = session)
  ∧ (∀ (allow : List String) (m : Model), "session" ∉ allow →
        "session" ∉ (ModelBase.dump allow m).map Prod.fst)
  ∧ (∀ l ∈ allDumpAttributeLists, "session" ∉ l)
  ∧ (∀ m : Model, "session" ∉ (Sync.dump m).map Prod.fst) := by
  refine ⟨?_, ?_, by decide, ?_⟩
  · intro session kwargs h
    unfold baseAttrs
    rw [getAttr_setAttrs_not_mem kwargs _ "session" (keys_of_not_reserved h).1]
    rfl
  · intro allow m h hmem
    exact h (dump_keys_subset hmem)
  · intro m
    unfold Sync.dump
    cases hch : getAttr m "challenge"
    case record tag attrs =>
        intro hmem
        rcases mem_keys_setAttr hmem with h | h
        · exact (by decide : "session" ∉ Sync.dump_attributes) (dump_keys_subset h)
        · exact absurd h (by decide)
    all_goals
      intro hmem
      exact (by decide : "session" ∉ Sync.dump_attributes) (dump_keys_subset hmem)

/-- Witness for C10 at concrete records, allow-lists and a Sync. -/
theorem claim10_witness :
    getAttr (baseAttrs (Value.str "s0") [("id", Value.num 1)]) "session" = Value.str "s0"
    ∧ "session" ∉ (ModelBase.dump User.dump_attributes
        [("session", Value.str "s0")]).map Prod.fst
    ∧ "session" ∉ Transaction.dump_attributes
    ∧ "session" ∉ (Sync.dump [("session", Value.str "s0")]).map Prod.fst :=
  ⟨claim10_session_never_dumped.1 (Value.str "s0") [("id", Value.num 1)] rfl,
   claim10_session_never_dumped.2.1 User.dump_attributes [("session", Value.str "s0")] (by decide),
   claim10_session_never_dumped.2.2.1 Transaction.dump_attributes (by decide),
   claim10_session_never_dumped.2.2.2 [("session", Value.str "s0")]⟩

end Figo
